import Mathlib

/-!
Shallow embedding of `download_datasets.py` and `base.py` from the
`dataspace_copernicus` repository, together with proofs of the spec claims.

The Python program is an HTTP client; its observable behaviour is the
sequence of network requests, directory creations and file writes it
performs, together with the value it returns or the exception it raises.
We model the remote world explicitly:
  * the catalog endpoint is a function `net : String → Json` giving the
    parsed JSON body that `requests.get(url).json()` returns;
  * the identity (token) endpoint outcome is a `TokenResult`: either the
    POST itself raised (transport failure), or a response with a status
    code and parsed JSON body;
  * the download stream is the list of byte chunks that
    `response.iter_content(chunk_size=8192)` yields;
  * the local filesystem is the list of directory paths that exist.
Observable side effects are collected in a trace of `Event`s.
Python exceptions are modelled by `PyError`; a function that can raise
returns an `Except PyError` value.
-/

namespace Dataspace

/-- Parsed JSON values, as returned by `requests.Response.json()`. -/
inductive Json where
  | str : String → Json
  | num : Int → Json
  | arr : List Json → Json
  | obj : List (String × Json) → Json
deriving Repr

/-- Python dictionary lookup `j[k]` on a parsed JSON object; `none` models a
`KeyError` (or a type error when `j` is not a dict). -/
def Json.getKey (j : Json) (k : String) : Option Json :=
  match j with
  | Json.obj kvs => List.lookup k kvs
  | _ => none

mutual

/-- Python `repr` of a parsed JSON value (a dict/list/str/int tree). -/
def Json.pyrepr : Json → String
  | Json.str s => "\x27" ++ s ++ "\x27"
  | Json.num n => toString n
  | Json.arr xs => "[" ++ Json.pyreprItems xs ++ "]"
  | Json.obj kvs => "\x7b" ++ Json.pyreprFields kvs ++ "\x7d"

/-- `repr` of the comma-separated items of a Python list. -/
def Json.pyreprItems : List Json → String
  | [] => ""
  | [x] => Json.pyrepr x
  | x :: xs => Json.pyrepr x ++ ", " ++ Json.pyreprItems xs

/-- `repr` of the comma-separated `key: value` fields of a Python dict. -/
def Json.pyreprFields : List (String × Json) → String
  | [] => ""
  | [(k, v)] => "\x27" ++ k ++ "\x27: " ++ Json.pyrepr v
  | (k, v) :: kvs =>
      "\x27" ++ k ++ "\x27: " ++ Json.pyrepr v ++ ", " ++ Json.pyreprFields kvs

end

/-- Python `str()` as used by f-string interpolation: strings verbatim,
everything else via `repr` (for dicts/lists `str` and `repr` coincide). -/
def Json.pystr (j : Json) : String :=
  match j with
  | Json.str s => s
  | j => Json.pyrepr j

/-- Python exceptions that the modelled code can raise. -/
inductive PyError where
  /-- `NameError`/`UnboundLocalError`: the named local variable was read
  before any assignment to it executed. -/
  | nameError : String → PyError
  /-- `IndexError`, from `.iloc[0]` on an empty DataFrame. -/
  | indexError : PyError
  /-- `KeyError` for the named key. -/
  | keyError : String → PyError
  /-- `raise Exception(msg)`. -/
  | exception : String → PyError
deriving Repr, DecidableEq

/-- A `datetime.date` value. -/
structure PyDate where
  year : Nat
  month : Nat
  day : Nat
deriving Repr, DecidableEq

/-- Zero-padding to two digits, as `%m`/`%d` do. -/
def pad2 (n : Nat) : String :=
  if n < 10 then "0" ++ toString n else toString n

/-- Zero-padding to four digits, as `%Y` does for common years. -/
def pad4 (n : Nat) : String :=
  if n < 10 then "000" ++ toString n
  else if n < 100 then "00" ++ toString n
  else if n < 1000 then "0" ++ toString n
  else toString n

/-- `date.strftime("%Y%m%d")`. -/
def PyDate.strftimeYmd (d : PyDate) : String :=
  pad4 d.year ++ pad2 d.month ++ pad2 d.day

/-- One observable side effect of the program. -/
inductive Event where
  /-- `requests.get(url)` against the catalog endpoint. -/
  | catalogRequest : String → Event
  /-- `requests.post(...)` against the identity token endpoint. -/
  | tokenRequest : Event
  /-- `session.get(url, ...)` against the zipper download endpoint. -/
  | zipperRequest : String → Event
  /-- `os.makedirs(path)`. -/
  | mkdir : String → Event
  /-- `open(path, 'wb')` followed by the chunk writes: the final content. -/
  | fileWrite : String → List Nat → Event
deriving Repr, DecidableEq

/-- Outcome of the `requests.post` call to the identity token endpoint:
either the call itself raised (network-level failure), or a response
arrived with the given status code and parsed JSON body. -/
inductive TokenResult where
  | transportFail : TokenResult
  | resp : Nat → Json → TokenResult
deriving Repr

/-- `base.Dataspace_username` (from `base.py`). -/
def Dataspace_username : String := ""

/-- `base.Dataspace_password` (from `base.py`). -/
def Dataspace_password : String := ""

/-- `base.tiles["test"]` (from `base.py`). -/
def tiles_test : List String := ["16QEJ", "16QDH"]

/-- The catalog search URL built at line 46 of `download_datasets.py`:
`f"https://catalogue.dataspace.copernicus.eu/odata/v1/Products?$filter=contains(Name, '{date}') and contains(Name, '{tile}')"`
where `date` is already the `level_YYYYMMDD` token. -/
def catalogUrl (dateTok tile : String) : String :=
  "https://catalogue.dataspace.copernicus.eu/odata/v1/Products?$filter=contains(Name, \x27"
    ++ dateTok ++ "\x27) and contains(Name, \x27" ++ tile ++ "\x27)"

/-- The dict returned by `search_products` (keys `ids`, `names`, `tiles`,
`origin_dates`). -/
structure Products where
  ids : Json
  names : Json
  tiles : String
  origin_dates : Json
deriving Repr

/-- `search_products(tile, date, search_string, product_type, satellite, query_args)`
(lines 24–69).  `net` is the catalog endpoint.  Returns the event trace and
the result.  Following the source: the date is formatted as `YYYYMMDD`;
`level` is assigned only in the `product_type == "L1C"` branch, so any other
product type reads an unbound local at line 41 (`f"{level}_{date}"`) before
any request is issued; the response field `value` is loaded into a DataFrame
and row `.iloc[0]` is taken, raising `IndexError` when the array is empty;
`Id`, `Name`, `OriginDate` are read from that first row.  `search_string`,
`satellite` and `query_args` are accepted but never consulted.  (The pandas
corner where a key is missing from the first row but present in a later one
yields NaN rather than `KeyError`; no claim touches it and it is collapsed
to the `KeyError` case here.  Non-list shapes of `value` are likewise
collapsed to the error case.) -/
def search_products (net : String → Json) (tile : String) (date : PyDate)
    (search_string : Option PyDate) (product_type : String)
    (satellite : Option String) (query_args : Option (List (String × String))) :
    List Event × Except PyError Products :=
  let dateStr := date.strftimeYmd
  if product_type = "L1C" then
    let level := "MSIL1C"
    let dateTok := level ++ "_" ++ dateStr
    let url := catalogUrl dateTok tile
    let json_response := net url
    let res : Except PyError Products :=
      match json_response.getKey "value" with
      | none => Except.error (PyError.keyError "value")
      | some (Json.arr []) => Except.error PyError.indexError
      | some (Json.arr (row :: _)) =>
        match row.getKey "Id" with
        | none => Except.error (PyError.keyError "Id")
        | some idv =>
          match row.getKey "Name" with
          | none => Except.error (PyError.keyError "Name")
          | some namev =>
            match row.getKey "OriginDate" with
            | none => Except.error (PyError.keyError "OriginDate")
            | some originv => Except.ok ⟨idv, namev, tile, originv⟩
      | some _ => Except.error PyError.indexError
    ([Event.catalogRequest url], res)
  else
    ([], Except.error (PyError.nameError "level"))

/-- `get_access_token(username, password)` (lines 74–98).  `netr` is the
outcome of the POST to the identity endpoint.  Following the source: if the
POST itself raised, the `except` block reads the never-assigned local `r`
and so raises `UnboundLocalError` (modelled `nameError "r"`); if
`raise_for_status()` raised (4xx/5xx), the `except` block raises
`Exception` with the f-string message embedding `r.json()`; otherwise the
token is `r.json()["access_token"]`. -/
def get_access_token (username password : String) (netr : TokenResult) :
    Except PyError String :=
  match netr with
  | TokenResult.transportFail => Except.error (PyError.nameError "r")
  | TokenResult.resp status body =>
    if 400 ≤ status ∧ status < 600 then
      Except.error (PyError.exception
        ("Access token creation failed. Reponse from the server was: "
          ++ body.pystr))
    else
      match body.getKey "access_token" with
      | none => Except.error (PyError.keyError "access_token")
      | some v => Except.ok v.pystr

/-- `download_products(products, datadir, unzip, max_retries, verbose)`
(lines 103–149).  `authResult` is the identity endpoint's outcome for the
`get_access_token` call made first; `chunks` are the byte chunks that
`response.iter_content(chunk_size=8192)` yields; `existingDirs` is the set
of directories that exist.  Following the source: the token is fetched
(one POST); on failure the exception propagates.  Then the zipper GET is
issued, the directory `f"{datadir}T{tile}"` is created only when absent,
and only when `unzip == False` is the file `f"{datadir}T{tile}/{name}.zip"`
opened and every non-empty chunk written to it.  `max_retries` and
`verbose` are accepted but never consulted. -/
def download_products (authResult : TokenResult) (chunks : List (List Nat))
    (existingDirs : List String) (products : Products) (datadir : String)
    (unzip : Bool) (max_retries : Nat) (verbose : Bool) :
    List Event × Except PyError Unit :=
  match get_access_token Dataspace_username Dataspace_password authResult with
  | Except.error e => ([Event.tokenRequest], Except.error e)
  | Except.ok _access_token =>
    let idStr := products.ids.pystr
    let nameStr := products.names.pystr
    let tile := products.tiles
    let url := "https://zipper.dataspace.copernicus.eu/odata/v1/Products("
      ++ idStr ++ ")/$value"
    let dirPath := datadir ++ "T" ++ tile
    let mkdirEvents : List Event :=
      if existingDirs.contains dirPath then [] else [Event.mkdir dirPath]
    if unzip = false then
      let filePath := dirPath ++ "/" ++ nameStr ++ ".zip"
      let content := List.flatten (chunks.filter (fun c => c ≠ []))
      ([Event.tokenRequest, Event.zipperRequest url] ++ mkdirEvents
        ++ [Event.fileWrite filePath content], Except.ok ())
    else
      ([Event.tokenRequest, Event.zipperRequest url] ++ mkdirEvents,
        Except.ok ())

/-- Directories created during a trace. -/
def dirsMade (evs : List Event) : List String :=
  evs.filterMap fun e =>
    match e with
    | Event.mkdir p => some p
    | _ => none

/-- Files written during a trace, with their contents. -/
def filesWritten (evs : List Event) : List (String × List Nat) :=
  evs.filterMap fun e =>
    match e with
    | Event.fileWrite p c => some (p, c)
    | _ => none

/-- Catalog request URLs issued during a trace. -/
def catalogRequests (evs : List Event) : List String :=
  evs.filterMap fun e =>
    match e with
    | Event.catalogRequest u => some u
    | _ => none

/-- Whether a Search outcome is a raised exception. -/
def searchFails (r : Except PyError Products) : Bool :=
  match r with
  | Except.error _ => true
  | Except.ok _ => false

/-- `search_and_download_datasets(tiles, start_date, end_date, datadir,
unzip, max_retries, verbose, query_args)` (lines 153–179).  Following the
source, for each tile in order it calls
`search_products(tile, start_date, end_date, query_args=query_args)` —
positionally, `date := start_date` and `search_string := end_date` — and
then `download_products(products, datadir, unzip=unzip,
max_retries=max_retries, verbose=verbose)`; any exception propagates and
ends the loop.  Returns the event trace, the final directory set, and the
result. -/
def search_and_download_datasets (net : String → Json)
    (authResult : TokenResult) (chunks : List (List Nat))
    (existingDirs : List String) (tiles : List String)
    (start_date end_date : PyDate) (datadir : String) (unzip : Bool)
    (max_retries : Nat) (verbose : Bool)
    (query_args : Option (List (String × String))) :
    List Event × List String × Except PyError Unit :=
  match tiles with
  | [] => ([], existingDirs, Except.ok ())
  | tile :: rest =>
    let sres := search_products net tile start_date (some end_date) "L1C"
      none query_args
    match sres.2 with
    | Except.error e => (sres.1, existingDirs, Except.error e)
    | Except.ok products =>
      let dres := download_products authResult chunks existingDirs products
        datadir unzip max_retries verbose
      let dirsAfter := existingDirs ++ dirsMade dres.1
      match dres.2 with
      | Except.error e => (sres.1 ++ dres.1, dirsAfter, Except.error e)
      | Except.ok _ =>
        let r := search_and_download_datasets net authResult chunks dirsAfter
          rest start_date end_date datadir unzip max_retries verbose
          query_args
        (sres.1 ++ dres.1 ++ r.1, r.2.1, r.2.2)

/-- C10: for every call to Search with a `product_type` argument other than
`"L1C"`, the function fails with an unbound-variable error (the `level`
name is only assigned in the L1C branch) before any network request is
issued: the event trace is empty and the result is `NameError` for
`level`. -/
theorem c10_non_l1c_unbound_level (net : String → Json) (tile : String)
    (date : PyDate) (search_string : Option PyDate) (product_type : String)
    (satellite : Option String) (query_args : Option (List (String × String)))
    (h : product_type ≠ "L1C") :
    search_products net tile date search_string product_type satellite
        query_args
      = ([], Except.error (PyError.nameError "level")) := by
  simp [search_products, h]

/-- Witness for C10 at `product_type = "L2A"`. -/
theorem c10_non_l1c_unbound_level_witness :
    search_products (fun _ => Json.obj []) "16QEJ" ⟨2024, 1, 16⟩ none "L2A"
        none none
      = ([], Except.error (PyError.nameError "level")) :=
  c10_non_l1c_unbound_level _ _ _ _ _ _ _ (by decide)

/-- C3: for every tile/date pair for which the catalog response's match
array is empty, Search raises an unhandled indexing exception
(`IndexError` from `.iloc[0]`) and does not return an empty or default
Product descriptor. -/
theorem c3_empty_match_raises (net : String → Json) (tile : String)
    (date : PyDate) (search_string : Option PyDate)
    (satellite : Option String) (query_args : Option (List (String × String)))
    (h : net (catalogUrl ("MSIL1C_" ++ date.strftimeYmd) tile)
          = Json.obj [("value", Json.arr [])]) :
    (search_products net tile date search_string "L1C" satellite
        query_args).2
      = Except.error PyError.indexError := by
  simp [search_products, h, Json.getKey, List.lookup]

/-- Witness for C3: a catalog that answers every query with an empty match
array. -/
theorem c3_empty_match_raises_witness :
    (search_products (fun _ => Json.obj [("value", Json.arr [])]) "16QEJ"
        ⟨2024, 1, 16⟩ none "L1C" none none).2
      = Except.error PyError.indexError :=
  c3_empty_match_raises _ "16QEJ" ⟨2024, 1, 16⟩ none none none rfl

/-- C4: for every tile/date pair whose catalog response contains at least
one match, Search selects the first element of the match array
unconditionally (the remaining matches are arbitrary and ignored) and
returns a Product descriptor whose `tiles` field equals the input tile and
whose `ids` and `names` are taken verbatim from that first JSON match. -/
theorem c4_first_match_verbatim (net : String → Json) (tile : String)
    (date : PyDate) (search_string : Option PyDate)
    (satellite : Option String) (query_args : Option (List (String × String)))
    (row : Json) (rest : List Json) (idv namev originv : Json)
    (hnet : net (catalogUrl ("MSIL1C_" ++ date.strftimeYmd) tile)
          = Json.obj [("value", Json.arr (row :: rest))])
    (hid : row.getKey "Id" = some idv)
    (hname : row.getKey "Name" = some namev)
    (horigin : row.getKey "OriginDate" = some originv) :
    (search_products net tile date search_string "L1C" satellite
        query_args).2
      = Except.ok ⟨idv, namev, tile, originv⟩ := by
  have hv : (Json.obj [("value", Json.arr (row :: rest))]).getKey "value"
      = some (Json.arr (row :: rest)) := rfl
  simp [search_products, hnet, hv, hid, hname, horigin]

/-- Witness for C4: a catalog answering with two matches; the descriptor is
built from the first one. -/
theorem c4_first_match_verbatim_witness :
    (search_products
        (fun _ => Json.obj [("value", Json.arr
          [Json.obj [("Id", Json.str "id-one"), ("Name", Json.str "name-one"),
            ("OriginDate", Json.str "2024-01-16")],
           Json.obj [("Id", Json.str "id-two"), ("Name", Json.str "name-two"),
            ("OriginDate", Json.str "2024-01-17")]])])
        "16QEJ" ⟨2024, 1, 16⟩ none "L1C" none none).2
      = Except.ok ⟨Json.str "id-one", Json.str "name-one", "16QEJ",
          Json.str "2024-01-16"⟩ :=
  c4_first_match_verbatim _ "16QEJ" ⟨2024, 1, 16⟩ none none none _ _ _ _ _
    rfl rfl rfl rfl

/-- C5: for every Product descriptor and destination directory, Download
called with `unzip = true` writes no file at all. -/
theorem c5_unzip_true_no_file (authResult : TokenResult)
    (chunks : List (List Nat)) (existingDirs : List String)
    (products : Products) (datadir : String) (max_retries : Nat)
    (verbose : Bool) :
    filesWritten (download_products authResult chunks existingDirs products
        datadir true max_retries verbose).1 = [] := by
  unfold download_products
  cases get_access_token Dataspace_username Dataspace_password authResult <;>
    simp [filesWritten]

/-- C2: on a transport failure of the token POST the except handler reads
the never-assigned local `r`, so the call raises `UnboundLocalError` — an
error that does not report the server's JSON payload — rather than the
documented payload-reporting `Exception`; on a 4xx response the
payload-reporting `Exception` is raised as documented.  In neither case is
a token string returned. -/
theorem c2_transport_failure_unbound_r :
    get_access_token "user" "pass" TokenResult.transportFail
      = Except.error (PyError.nameError "r")
    ∧ get_access_token "user" "pass"
        (TokenResult.resp 401 (Json.obj [("error", Json.str "invalid_grant")]))
      = Except.error (PyError.exception
          ("Access token creation failed. Reponse from the server was: "
            ++ "\x7b\x27error\x27: \x27invalid_grant\x27\x7d")) :=
  ⟨rfl, rfl⟩

/-- C6: for every Product descriptor with a valid token and every streamed
response, Download with `unzip = false` writes exactly one file, at path
`<datadir>T<tile>/<name>.zip`, whose byte length equals the sum of the
lengths of all non-empty streamed chunks (empty chunks are skipped). -/
theorem c6_download_writes_file (authResult : TokenResult)
    (chunks : List (List Nat)) (existingDirs : List String)
    (products : Products) (datadir : String) (max_retries : Nat)
    (verbose : Bool) (tok : String)
    (hauth : get_access_token Dataspace_username Dataspace_password authResult
      = Except.ok tok) :
    filesWritten (download_products authResult chunks existingDirs products
        datadir false max_retries verbose).1
      = [(datadir ++ "T" ++ products.tiles ++ "/" ++ products.names.pystr
            ++ ".zip",
          List.flatten (chunks.filter (fun c => c ≠ [])))]
    ∧ (List.flatten (chunks.filter (fun c => c ≠ []))).length
        = ((chunks.filter (fun c => c ≠ [])).map List.length).sum := by
  constructor
  · unfold download_products
    rw [hauth]
    simp [filesWritten]
  · exact List.length_flatten _

/-- Witness for C6: a token-granting identity endpoint, chunks
`[[1,2],[],[3]]`, an empty filesystem. -/
theorem c6_download_writes_file_witness :
    filesWritten (download_products
        (TokenResult.resp 200 (Json.obj [("access_token", Json.str "tok")]))
        [[1, 2], [], [3]] []
        ⟨Json.str "pid", Json.str "pname", "16QEJ", Json.str "2024-01-16"⟩
        "./" false 5 true).1
      = [("./T16QEJ/pname.zip", [1, 2, 3])]
    ∧ (List.flatten (([[1, 2], [], [3]] :
          List (List Nat)).filter (fun c => c ≠ []))).length
        = ((([[1, 2], [], [3]] : List (List Nat)).filter
            (fun c => c ≠ [])).map List.length).sum :=
  c6_download_writes_file
    (TokenResult.resp 200 (Json.obj [("access_token", Json.str "tok")]))
    [[1, 2], [], [3]] []
    ⟨Json.str "pid", Json.str "pname", "16QEJ", Json.str "2024-01-16"⟩
    "./" 5 true "tok" rfl

/-- C7: for every destination directory and tile, Download (once the token
was obtained) creates the tile-named subdirectory exactly when that
directory does not already exist, and raises no error when it does already
exist. -/
theorem c7_mkdir_iff_absent (authResult : TokenResult)
    (chunks : List (List Nat)) (existingDirs : List String)
    (products : Products) (datadir : String) (unzip : Bool)
    (max_retries : Nat) (verbose : Bool) (tok : String)
    (hauth : get_access_token Dataspace_username Dataspace_password authResult
      = Except.ok tok) :
    dirsMade (download_products authResult chunks existingDirs products
        datadir unzip max_retries verbose).1
      = (if existingDirs.contains (datadir ++ "T" ++ products.tiles) then []
         else [datadir ++ "T" ++ products.tiles])
    ∧ (download_products authResult chunks existingDirs products datadir
        unzip max_retries verbose).2 = Except.ok () := by
  unfold download_products
  rw [hauth]
  cases unzip <;> simp [dirsMade] <;> split <;> simp [dirsMade]

/-- Witness for C7, in both filesystem states: with the directory absent it
is created; with it present nothing is created; no error either way. -/
theorem c7_mkdir_iff_absent_witness :
    (dirsMade (download_products
        (TokenResult.resp 200 (Json.obj [("access_token", Json.str "tok")]))
        [] []
        ⟨Json.str "pid", Json.str "pname", "16QEJ", Json.str "2024-01-16"⟩
        "./" false 5 true).1
      = (if ([] : List String).contains ("./" ++ "T" ++ "16QEJ") then []
         else ["./" ++ "T" ++ "16QEJ"])
    ∧ (download_products
        (TokenResult.resp 200 (Json.obj [("access_token", Json.str "tok")]))
        [] []
        ⟨Json.str "pid", Json.str "pname", "16QEJ", Json.str "2024-01-16"⟩
        "./" false 5 true).2 = Except.ok ())
    ∧ (dirsMade (download_products
        (TokenResult.resp 200 (Json.obj [("access_token", Json.str "tok")]))
        [] ["./T16QEJ"]
        ⟨Json.str "pid", Json.str "pname", "16QEJ", Json.str "2024-01-16"⟩
        "./" false 5 true).1
      = (if (["./T16QEJ"] : List String).contains ("./" ++ "T" ++ "16QEJ")
         then [] else ["./" ++ "T" ++ "16QEJ"])
    ∧ (download_products
        (TokenResult.resp 200 (Json.obj [("access_token", Json.str "tok")]))
        [] ["./T16QEJ"]
        ⟨Json.str "pid", Json.str "pname", "16QEJ", Json.str "2024-01-16"⟩
        "./" false 5 true).2 = Except.ok ()) :=
  ⟨c7_mkdir_iff_absent
      (TokenResult.resp 200 (Json.obj [("access_token", Json.str "tok")]))
      [] []
      ⟨Json.str "pid", Json.str "pname", "16QEJ", Json.str "2024-01-16"⟩
      "./" false 5 true "tok" rfl,
   c7_mkdir_iff_absent
      (TokenResult.resp 200 (Json.obj [("access_token", Json.str "tok")]))
      [] ["./T16QEJ"]
      ⟨Json.str "pid", Json.str "pname", "16QEJ", Json.str "2024-01-16"⟩
      "./" false 5 true "tok" rfl⟩

/-- C9: `max_retries` is accepted but never consulted — two calls to
Download, or to the Orchestrator, that differ only in `max_retries` have
identical observable behaviour: same event trace (requests issued,
directories created, files written), same final filesystem, same result. -/
theorem c9_max_retries_ignored (net : String → Json)
    (authResult : TokenResult) (chunks : List (List Nat))
    (existingDirs : List String) (products : Products) (tiles : List String)
    (start_date end_date : PyDate) (datadir : String) (unzip : Bool)
    (mr1 mr2 : Nat) (verbose : Bool)
    (query_args : Option (List (String × String))) :
    download_products authResult chunks existingDirs products datadir unzip
        mr1 verbose
      = download_products authResult chunks existingDirs products datadir
          unzip mr2 verbose
    ∧ search_and_download_datasets net authResult chunks existingDirs tiles
        start_date end_date datadir unzip mr1 verbose query_args
      = search_and_download_datasets net authResult chunks existingDirs tiles
          start_date end_date datadir unzip mr2 verbose query_args := by
  refine ⟨rfl, ?_⟩
  induction tiles generalizing existingDirs with
  | nil => rfl
  | cons t rest ih =>
    simp only [search_and_download_datasets]
    cases hs : (search_products net t start_date (some end_date) "L1C" none
        query_args).2 with
    | error e => rfl
    | ok products =>
      dsimp only
      have hd : download_products authResult chunks existingDirs products
          datadir unzip mr2 verbose
        = download_products authResult chunks existingDirs products datadir
            unzip mr1 verbose := rfl
      rw [hd]
      cases hdl : (download_products authResult chunks existingDirs products
          datadir unzip mr1 verbose).2 with
      | error e => rfl
      | ok u =>
        dsimp only
        rw [ih]

/-- The L1C search issues exactly one catalog request, whose URL embeds the
`MSIL1C_YYYYMMDD` token built from the search's `date` argument. -/
theorem search_products_trace (net : String → Json) (tile : String)
    (date : PyDate) (search_string : Option PyDate)
    (satellite : Option String)
    (query_args : Option (List (String × String))) :
    (search_products net tile date search_string "L1C" satellite
        query_args).1
      = [Event.catalogRequest
          (catalogUrl ("MSIL1C_" ++ date.strftimeYmd) tile)] := by
  simp [search_products]

/-- Download never contacts the catalog endpoint. -/
theorem download_products_no_catalog (authResult : TokenResult)
    (chunks : List (List Nat)) (existingDirs : List String)
    (products : Products) (datadir : String) (unzip : Bool)
    (max_retries : Nat) (verbose : Bool) :
    catalogRequests (download_products authResult chunks existingDirs
        products datadir unzip max_retries verbose).1 = [] := by
  unfold download_products
  cases get_access_token Dataspace_username Dataspace_password authResult <;>
    cases unzip <;> simp [catalogRequests]

/-- `catalogRequests` distributes over trace concatenation. -/
theorem catalogRequests_append (a b : List Event) :
    catalogRequests (a ++ b) = catalogRequests a ++ catalogRequests b := by
  simp [catalogRequests]

/-- C1 (amended): for every tile list and every pair of start and end
dates, each search query the Orchestrator embeds in a catalog URL is built
from the start date — the issued catalog URLs are exactly the
start-date-based URLs of an initial segment of the tile list; the end date
is never consulted by the query builder. -/
theorem c1_query_built_from_start_date (net : String → Json)
    (authResult : TokenResult) (chunks : List (List Nat))
    (existingDirs : List String) (tiles : List String)
    (start_date end_date : PyDate) (datadir : String) (unzip : Bool)
    (max_retries : Nat) (verbose : Bool)
    (query_args : Option (List (String × String))) :
    catalogRequests (search_and_download_datasets net authResult chunks
        existingDirs tiles start_date end_date datadir unzip max_retries
        verbose query_args).1
      = (tiles.map (fun t =>
            catalogUrl ("MSIL1C_" ++ start_date.strftimeYmd) t)).take
          (catalogRequests (search_and_download_datasets net authResult
              chunks existingDirs tiles start_date end_date datadir unzip
              max_retries verbose query_args).1).length := by
  induction tiles generalizing existingDirs with
  | nil => simp [search_and_download_datasets, catalogRequests]
  | cons t rest ih =>
    simp only [search_and_download_datasets]
    cases hs : (search_products net t start_date (some end_date) "L1C" none
        query_args).2 with
    | error e =>
      dsimp only
      rw [search_products_trace]
      simp [catalogRequests]
    | ok products =>
      dsimp only
      cases hdl : (download_products authResult chunks existingDirs products
          datadir unzip max_retries verbose).2 with
      | error e =>
        dsimp only
        rw [catalogRequests_append, search_products_trace,
            download_products_no_catalog]
        simp [catalogRequests]
      | ok u =>
        dsimp only
        rw [catalogRequests_append, catalogRequests_append,
            search_products_trace, download_products_no_catalog]
        have ih' := ih (existingDirs ++ dirsMade (download_products
            authResult chunks existingDirs products datadir unzip
            max_retries verbose).1)
        generalize catalogRequests (search_and_download_datasets net
            authResult chunks (existingDirs ++ dirsMade (download_products
            authResult chunks existingDirs products datadir unzip
            max_retries verbose).1) rest start_date end_date datadir unzip
            max_retries verbose query_args).1 = xs at ih' ⊢
        simp only [catalogRequests, List.filterMap_cons, List.filterMap_nil,
          List.nil_append, List.append_nil, List.length_cons, List.map_cons,
          List.take_succ_cons, List.cons_append]
        exact congrArg (List.cons _) ih'

/-- C8: the Orchestrator is fail-fast with no error isolation — when every
tile before `t` was processed successfully and Search raises an exception
on `t`, the whole run's trace ends with `t`'s catalog request: no Search,
token, download or filesystem activity happens for any tile after `t`. -/
theorem c8_fail_fast_no_isolation (net : String → Json)
    (authResult : TokenResult) (chunks : List (List Nat))
    (existingDirs : List String) (pre : List String) (t : String)
    (post : List String) (start_date end_date : PyDate) (datadir : String)
    (unzip : Bool) (max_retries : Nat) (verbose : Bool)
    (query_args : Option (List (String × String)))
    (hpre : (search_and_download_datasets net authResult chunks existingDirs
        pre start_date end_date datadir unzip max_retries verbose
        query_args).2.2 = Except.ok ())
    (hfail : searchFails (search_products net t start_date (some end_date)
        "L1C" none query_args).2 = true) :
    (search_and_download_datasets net authResult chunks existingDirs
        (pre ++ t :: post) start_date end_date datadir unzip max_retries
        verbose query_args).1
      = (search_and_download_datasets net authResult chunks existingDirs pre
          start_date end_date datadir unzip max_retries verbose
          query_args).1
        ++ (search_products net t start_date (some end_date) "L1C" none
            query_args).1 := by
  induction pre generalizing existingDirs with
  | nil =>
    simp only [List.nil_append, search_and_download_datasets]
    cases hs : (search_products net t start_date (some end_date) "L1C" none
        query_args).2 with
    | error e => dsimp only
    | ok products => rw [hs] at hfail; simp [searchFails] at hfail
  | cons p pre' ih =>
    rw [List.cons_append]
    simp only [search_and_download_datasets] at hpre ⊢
    cases hsp : (search_products net p start_date (some end_date) "L1C" none
        query_args).2 with
    | error e => rw [hsp] at hpre; simp at hpre
    | ok products =>
      rw [hsp] at hpre
      dsimp only at hpre ⊢
      cases hdp : (download_products authResult chunks existingDirs products
          datadir unzip max_retries verbose).2 with
      | error e => rw [hdp] at hpre; simp at hpre
      | ok u =>
        rw [hdp] at hpre
        dsimp only at hpre ⊢
        rw [ih _ hpre]
        simp [List.append_assoc]

/-- Witness for C8: with a catalog that answers every query with a bodiless
JSON object, the search on the first test tile raises; the run over both
test tiles produces exactly the first tile's catalog request and nothing
for the second tile. -/
theorem c8_fail_fast_no_isolation_witness :
    (search_and_download_datasets (fun _ => Json.obj [])
        TokenResult.transportFail [] [] ["16QEJ", "16QDH"] ⟨2024, 1, 16⟩
        ⟨2024, 1, 16⟩ "../" false 3 true none).1
      = (search_and_download_datasets (fun _ => Json.obj [])
          TokenResult.transportFail [] [] [] ⟨2024, 1, 16⟩ ⟨2024, 1, 16⟩
          "../" false 3 true none).1
        ++ (search_products (fun _ => Json.obj []) "16QEJ" ⟨2024, 1, 16⟩
            (some ⟨2024, 1, 16⟩) "L1C" none none).1 :=
  c8_fail_fast_no_isolation (fun _ => Json.obj []) TokenResult.transportFail
    [] [] [] "16QEJ" ["16QDH"] ⟨2024, 1, 16⟩ ⟨2024, 1, 16⟩ "../" false 3
    true none rfl rfl

/-- C1 counterexample: for the tile list `["16QEJ"]` with start date
2024-01-15 and end date 2024-01-16 (distinct), the catalog URL the
Orchestrator's call to Search issues embeds the start date's
`MSIL1C_20240115` token, and that URL differs from the one the claim
predicts (built from the end date). -/
theorem c1_counterexample :
    (search_and_download_datasets (fun _ => Json.obj [])
        TokenResult.transportFail [] [] ["16QEJ"] ⟨2024, 1, 15⟩
        ⟨2024, 1, 16⟩ "./" false 3 true none).1
      = [Event.catalogRequest
          (catalogUrl ("MSIL1C_" ++ PyDate.strftimeYmd ⟨2024, 1, 15⟩)
            "16QEJ")]
    ∧ catalogUrl ("MSIL1C_" ++ PyDate.strftimeYmd ⟨2024, 1, 15⟩) "16QEJ"
        ≠ catalogUrl ("MSIL1C_" ++ PyDate.strftimeYmd ⟨2024, 1, 16⟩)
            "16QEJ" := by
  constructor
  · rfl
  · decide

end Dataspace
